import Mathlib

/-!
# Verification of the parking space estimation & reclassification core

Shallow embedding of the geometric core of the `parkeerplaatsen` repository:

* `estimate_parking_spaces.py` — the Space-Fitting Estimator
  (`estimate_spaces_in_polygon`), the area computation
  (`calculate_polygon_area_m2`), the area-based vehicle-type override of the
  estimation pipeline (`estimate_spaces_for_facilities`), and the
  snap-to-common-angle stage of `detect_parking_orientation`.
* `scripts/reclassify_osm_parking_by_size.py` — the Dimension-Based
  Reclassifier (`calculate_distance`, `calculate_polygon_dimensions`,
  `reclassify_parking_spaces`).

Modelling conventions:

* Python floats are modelled by exact rationals (`ℚ`); float rounding error is
  outside the scope of this embedding.
* `math.cos(math.radians x)` (and, for the rotation branch, the corresponding
  sine) has no exact rational realisation, so every function that needs it
  takes an explicit function parameter `cosd : ℚ → ℚ` (degrees-cosine) /
  `sind : ℚ → ℚ` (degrees-sine).  All theorems below hold for every choice of
  these parameters; concrete instantiations in witnesses use the equatorial
  values `fun _ => 1` / `fun _ => 0`.
* `math.sqrt` is modelled by `Rat.sqrt`, the rational square-root
  approximation that is exact on perfect squares; every concrete evaluation in
  this file takes it at a perfect square, and no theorem depends on its value
  elsewhere.
* `int(x)` (Python truncation toward zero) is `pyInt`; `round(x, n)`
  (banker's rounding) is `pyRound`.
* The shapely library is not part of the repository; its geometric
  primitives (`Polygon` construction, `.area`, `.bounds`, `.contains`) are
  modelled from the spec where noted.
-/

/-! ## Numeric helpers modelling Python primitives -/

/-- Python `int(x)`: truncation toward zero. -/
def pyInt (q : ℚ) : ℤ := if 0 ≤ q then ⌊q⌋ else ⌈q⌉

/-- Python `round(x, nd)`: round half to even at `nd` decimal digits. -/
def pyRound (nd : ℕ) (q : ℚ) : ℚ :=
  let y := q * (10 ^ nd : ℚ)
  let n : ℤ :=
    if Int.fract y < 1/2 then ⌊y⌋
    else if 1/2 < Int.fract y then ⌊y⌋ + 1
    else if ⌊y⌋ % 2 = 0 then ⌊y⌋ else ⌊y⌋ + 1
  (n : ℚ) / (10 ^ nd : ℚ)

/-! ## Global constants (from both scripts; identical values) -/

def METERS_PER_DEGREE_LAT : ℚ := 111320
def METERS_PER_DEGREE_LON : ℚ := 70000

def TRUCK_SPACE_WIDTH : ℚ := 4
def TRUCK_SPACE_LENGTH : ℚ := 15
def VAN_SPACE_WIDTH : ℚ := 5/2
def VAN_SPACE_LENGTH : ℚ := 5

def SIZE_THRESHOLD_M2 : ℚ := 30

def TRUCK_MIN_WIDTH : ℚ := 7/2
def TRUCK_MIN_LENGTH : ℚ := 13

/-! ## Dimension-Based Reclassifier (`scripts/reclassify_osm_parking_by_size.py`) -/

/-- `calculate_distance(p1, p2)`: metric distance between two lon/lat points,
latitude-scaled delta and longitude-scaled delta (times the cosine of the mean
latitude), combined Euclidean.  `math.sqrt` is modelled by `Rat.sqrt`, exact on
perfect squares (every concrete evaluation below is at a perfect square). -/
def calculate_distance (cosd : ℚ → ℚ) (p1 p2 : ℚ × ℚ) : ℚ :=
  let lat_diff := (p2.2 - p1.2) * METERS_PER_DEGREE_LAT
  let lon_diff := (p2.1 - p1.1) * METERS_PER_DEGREE_LON * cosd ((p1.2 + p2.2) / 2)
  Rat.sqrt (lat_diff ^ 2 + lon_diff ^ 2)

/-- `calculate_polygon_dimensions(coords)`: lengths of the first two edges,
width = shorter, length = longer, area = product.  Returns `none` for rings of
fewer than 4 vertices (Python returns `(None, None, None)`). -/
def calculate_polygon_dimensions (cosd : ℚ → ℚ) (coords : List (ℚ × ℚ)) :
    Option (ℚ × ℚ × ℚ) :=
  if coords.length < 4 then none
  else
    let edge1 := calculate_distance cosd (coords.getD 0 (0, 0)) (coords.getD 1 (0, 0))
    let edge2 := calculate_distance cosd (coords.getD 1 (0, 0)) (coords.getD 2 (0, 0))
    let width := min edge1 edge2
    let length := max edge1 edge2
    some (width, length, width * length)

/-- Geometry of a parking-space GeoJSON feature: a polygon (outer ring,
`coordinates[0]`) or a point. -/
inductive SpaceGeometry where
  | polygon (ring : List (ℚ × ℚ))
  | point (p : ℚ × ℚ)
deriving DecidableEq, Repr

/-- The feature properties read and written by the reclassifier. -/
structure SpaceProps where
  vehicle_type : String
  classification_method : Option String
  width_m : Option ℚ
  length_m : Option ℚ
  area_m2 : Option ℚ
deriving DecidableEq, Repr

/-- A parking-space GeoJSON feature. -/
structure SpaceFeature where
  geometry : SpaceGeometry
  props : SpaceProps
deriving DecidableEq, Repr

/-- The property update of the reclassifier's polygon branch (lines 75–88):
store rounded dimensions and the CROW ASVV 2021 threshold classification. -/
def classify_props (p : SpaceProps) (width length : ℚ) : SpaceProps :=
  { p with
    width_m := some (pyRound 2 width)
    length_m := some (pyRound 2 length)
    area_m2 := some (pyRound 1 (width * length))
    vehicle_type :=
      if TRUCK_MIN_WIDTH ≤ width ∧ TRUCK_MIN_LENGTH ≤ length then "truck" else "car"
    classification_method := some "size-based (CROW ASVV 2021)" }

/-- The per-feature body of `reclassify_parking_spaces` (lines 68–98).
For a polygon feature the measured `width`, `length`, `area` must all be
truthy (non-`None` and non-zero) for any property to be written; a point
feature only gets `classification_method = "tag-based"`. -/
def reclassify_feature (cosd : ℚ → ℚ) (f : SpaceFeature) : SpaceFeature :=
  match f.geometry with
  | .polygon ring =>
    match calculate_polygon_dimensions cosd ring with
    | some (width, length, area) =>
      if width ≠ 0 ∧ length ≠ 0 ∧ area ≠ 0 then
        { f with props := classify_props f.props width length }
      else f
    | none => f
  | .point _ =>
    { f with props := { f.props with classification_method := some "tag-based" } }

/-- `reclassify_parking_spaces` applied to the feature list (ignoring the
printed counters and file I/O). -/
def reclassify_parking_spaces (cosd : ℚ → ℚ) (fs : List SpaceFeature) :
    List SpaceFeature :=
  fs.map (reclassify_feature cosd)

/-! ## Orientation snapping (`detect_parking_orientation`, lines 184–190) -/

/-- The `for snap_angle in common_angles` loop with `break`: the first
reference angle within (strictly less than) the 10-degree threshold of the
dominant angle replaces it. -/
def snapLoop (dominant_angle : ℚ) : List ℚ → ℚ
  | [] => dominant_angle
  | a :: rest => if |dominant_angle - a| < 10 then a else snapLoop dominant_angle rest

/-- The snap-to-common-angles stage of `detect_parking_orientation`: the first
reference angle of `[0, 45, 90, 135]` within (strictly less than) 10 degrees
of the dominant angle replaces it; otherwise the dominant angle is returned
unmodified.  The upstream image-processing pipeline (OpenCV) that produces the
dominant histogram angle is external and out of scope. -/
def snap_common_angle (dominant_angle : ℚ) : ℚ :=
  snapLoop dominant_angle [0, 45, 90, 135]

/-! ## Polygon geometry utilities (`estimate_parking_spaces.py`) -/

/-- `meters_to_degrees(meters, latitude)`: `(lat_deg, lon_deg)`. -/
def meters_to_degrees (cosd : ℚ → ℚ) (meters latitude : ℚ) : ℚ × ℚ :=
  (meters / METERS_PER_DEGREE_LAT, meters / (METERS_PER_DEGREE_LON * cosd latitude))

/-- The edges of a ring, each vertex paired with its successor, closing back to
the first vertex (shapely closes an unclosed ring; for a closed ring the extra
wrap-around edge is degenerate and contributes nothing). -/
def ringEdges (ring : List (ℚ × ℚ)) : List ((ℚ × ℚ) × (ℚ × ℚ)) :=
  match ring with
  | [] => []
  | p :: _ => ring.zip (ring.tail ++ [p])

/-- Modelled from the spec (§4.2, shapely is external): `polygon.contains(point)`,
a standard even–odd ray-casting point-in-polygon test, "used to discard grid
cells whose center falls outside the area". -/
def pointInRing (ring : List (ℚ × ℚ)) (pt : ℚ × ℚ) : Bool :=
  (ringEdges ring).foldl
    (fun inside e =>
      if (¬((pt.2 < e.1.2) ↔ (pt.2 < e.2.2))) ∧
          pt.1 < e.1.1 + (pt.2 - e.1.2) * (e.2.1 - e.1.1) / (e.2.2 - e.1.2) then
        !inside
      else inside)
    false

/-- Modelled from the spec (§4.2, shapely is external): `Polygon(coords).area`,
the absolute shoelace sum over the ring, in square degrees. -/
def shoelaceArea (ring : List (ℚ × ℚ)) : ℚ :=
  |(ringEdges ring).foldl (fun s e => s + (e.1.1 * e.2.2 - e.2.1 * e.1.2)) 0| / 2

/-- Modelled from the spec (§4.2/§4.4, shapely is external): `Polygon(coords)`
construction, which raises on a malformed ring (the GeoPolygon invariant
requires at least 4 vertices of a closed ring). -/
def mkRingChecked (coords : List (ℚ × ℚ)) : Except String Unit :=
  if coords.length < 4 then .error "invalid polygon" else .ok ()

/-- `polygon.bounds`: the axis-aligned bounding box
`(min_lon, min_lat, max_lon, max_lat)` of the ring's vertices. -/
def ringBounds (coords : List (ℚ × ℚ)) : ℚ × ℚ × ℚ × ℚ :=
  match coords with
  | [] => (0, 0, 0, 0)
  | p :: rest =>
    rest.foldl
      (fun b q => (min b.1 q.1, min b.2.1 q.2, max b.2.2.1 q.1, max b.2.2.2 q.2))
      (p.1, p.2, p.1, p.2)

/-- `calculate_polygon_area_m2(coords, centroid_lat)`: shoelace area in square
degrees scaled to square meters; `0` on malformed input (try/except). -/
def calculate_polygon_area_m2 (cosd : ℚ → ℚ) (coords : List (ℚ × ℚ))
    (centroid_lat : ℚ) : ℚ :=
  match mkRingChecked coords with
  | .error _ => 0
  | .ok _ =>
    shoelaceArea coords * METERS_PER_DEGREE_LAT *
      (METERS_PER_DEGREE_LON * cosd centroid_lat)

/-- `shapely.affinity.rotate(polygon, angle, origin)`: rotate every vertex
about `origin` by `angle` degrees counterclockwise (the estimator passes the
negated detected angle). -/
def rotateRing (cosd sind : ℚ → ℚ) (angle : ℚ) (origin : ℚ × ℚ)
    (ring : List (ℚ × ℚ)) : List (ℚ × ℚ) :=
  let c := cosd angle
  let s := sind angle
  ring.map (fun p =>
    (origin.1 + c * (p.1 - origin.1) - s * (p.2 - origin.2),
     origin.2 + s * (p.1 - origin.1) + c * (p.2 - origin.2)))

/-! ## Space-Fitting Estimator (`estimate_spaces_in_polygon`, lines 198–325) -/

/-- One estimated parking space (`space_data`, lines 295–308). -/
structure EstimatedSpace where
  space_number : ℕ
  center_lat : ℚ
  center_lon : ℚ
  width_m : ℚ
  length_m : ℚ
  area_m2 : ℚ
  polygon_coords : List (ℚ × ℚ)
  estimated : Bool
  rotation_angle : Option ℚ
deriving DecidableEq, Inhabited, Repr

/-- Lines 219–224: nominal space dimensions `(width_m, length_m)` from the
vehicle type; only the exact string `'truck'` selects truck dimensions. -/
def spaceDims (vehicle_type : String) : ℚ × ℚ :=
  if vehicle_type = "truck" then (TRUCK_SPACE_WIDTH, TRUCK_SPACE_LENGTH)
  else (VAN_SPACE_WIDTH, VAN_SPACE_LENGTH)

/-- Lines 231–254: grid dimensions `(rows, cols)`.  Base grid from the bounding
box and the spaced (×1.2) cell size; if a positive capacity is given, both are
rescaled by `sqrt(capacity / total)` and re-floored (minimum 1 each).
`max 1 (Nat.sqrt (rows ^ 2 * capacity / total))` is the exact value of
Python's `max(1, int(rows * math.sqrt(capacity / total)))`, since
`⌊rows * √(capacity/total)⌋ = ⌊√(rows² * capacity / total)⌋` and the floor of
the square root of a rational equals the floor square root of its floor. -/
def estimateGridDims (cosd : ℚ → ℚ) (coords : List (ℚ × ℚ)) (capacity : ℕ)
    (vehicle_type : String) (centroid_lat : ℚ) : ℕ × ℕ :=
  let wl := spaceDims vehicle_type
  let b := ringBounds coords
  let pm := meters_to_degrees cosd 1 centroid_lat
  let space_width_deg := wl.1 * pm.2 * (6/5)
  let space_length_deg := wl.2 * pm.1 * (6/5)
  let width_deg := b.2.2.1 - b.1
  let height_deg := b.2.2.2 - b.2.1
  let cols := max 1 (pyInt (width_deg / space_width_deg)).toNat
  let rows := max 1 (pyInt (height_deg / space_length_deg)).toNat
  if 0 < capacity then
    let total := rows * cols
    if 0 < total then
      (max 1 (Nat.sqrt (rows ^ 2 * capacity / total)),
       max 1 (Nat.sqrt (cols ^ 2 * capacity / total)))
    else (rows, cols)
  else (rows, cols)

/-- The loop-invariant context of the emission loop (lines 256–319). -/
structure EmitCtx where
  coords : List (ℚ × ℚ)
  minx : ℚ
  miny : ℚ
  wdeg : ℚ
  hdeg : ℚ
  rows : ℕ
  cols : ℕ
  w_m : ℚ
  l_m : ℚ
  lonPM : ℚ
  latPM : ℚ
  rot : Option ℚ
  capacity : ℕ
deriving Repr

/-- Lines 263–264: the center of grid cell `(row, col)` as a fractional
position within the bounding box. -/
def cellCenter (ctx : EmitCtx) (rc : ℕ × ℕ) : ℚ × ℚ :=
  (ctx.minx + ((rc.2 : ℚ) + 1/2) * (ctx.wdeg / (ctx.cols : ℚ)),
   ctx.miny + ((rc.1 : ℚ) + 1/2) * (ctx.hdeg / (ctx.rows : ℚ)))

/-- Lines 271–308: the `space_data` record for an accepted cell. -/
def mkSpace (cosd sind : ℚ → ℚ) (ctx : EmitCtx) (rc : ℕ × ℕ) (n : ℕ) :
    EstimatedSpace :=
  let cc := cellCenter ctx rc
  let half_width := (ctx.w_m / 2) * ctx.lonPM
  let half_length := (ctx.l_m / 2) * ctx.latPM
  let base : List (ℚ × ℚ) :=
    [(cc.1 - half_width, cc.2 - half_length),
     (cc.1 + half_width, cc.2 - half_length),
     (cc.1 + half_width, cc.2 + half_length),
     (cc.1 - half_width, cc.2 + half_length),
     (cc.1 - half_width, cc.2 - half_length)]
  let pc :=
    match ctx.rot with
    | some θ => if θ ≠ 0 then rotateRing cosd sind (-θ) cc base else base
    | none => base
  { space_number := n
    center_lat := cc.2
    center_lon := cc.1
    width_m := ctx.w_m
    length_m := ctx.l_m
    area_m2 := ctx.w_m * ctx.l_m
    polygon_coords := pc
    estimated := true
    rotation_angle := ctx.rot }

/-- The grid cells `(row, col)` in row-major order (lines 260–261). -/
def cellList (rows cols : ℕ) : List (ℕ × ℕ) :=
  (List.range rows).flatMap (fun r => (List.range cols).map (fun c => (r, c)))

/-- The emission loop (lines 256–319): walk the cells in row-major order,
skip cells whose center is not inside the polygon, number accepted spaces
sequentially from `n`, and — exactly as the Python double `break` — stop
right after emitting a space once `space_num` (already incremented) exceeds a
positive capacity. -/
def emitSpaces (cosd sind : ℚ → ℚ) (ctx : EmitCtx) :
    List (ℕ × ℕ) → ℕ → List EstimatedSpace
  | [], _ => []
  | rc :: rest, n =>
    if pointInRing ctx.coords (cellCenter ctx rc) then
      let s := mkSpace cosd sind ctx rc n
      if 0 < ctx.capacity ∧ ctx.capacity < n + 1 then [s]
      else s :: emitSpaces cosd sind ctx rest (n + 1)
    else emitSpaces cosd sind ctx rest n

/-- The full context built by lines 219–254 ahead of the emission loop.
(`centroid_lon` is accepted by the Python function but never used.) -/
def estimateCtx (cosd : ℚ → ℚ) (coords : List (ℚ × ℚ)) (capacity : ℕ)
    (vehicle_type : String) (centroid_lat : ℚ) (rot : Option ℚ) : EmitCtx :=
  let wl := spaceDims vehicle_type
  let b := ringBounds coords
  let pm := meters_to_degrees cosd 1 centroid_lat
  let rc := estimateGridDims cosd coords capacity vehicle_type centroid_lat
  { coords := coords
    minx := b.1
    miny := b.2.1
    wdeg := b.2.2.1 - b.1
    hdeg := b.2.2.2 - b.2.1
    rows := rc.1
    cols := rc.2
    w_m := wl.1
    l_m := wl.2
    lonPM := pm.2
    latPM := pm.1
    rot := rot
    capacity := capacity }

/-- The body of the `try:` block of `estimate_spaces_in_polygon` (lines
227–321); a raised exception is an `Except.error`. -/
def estimate_spaces_core (cosd sind : ℚ → ℚ) (polygon_coords : List (ℚ × ℚ))
    (capacity : ℕ) (vehicle_type : String) (centroid_lat centroid_lon : ℚ)
    (rotation_angle : Option ℚ) : Except String (List EstimatedSpace) :=
  (mkRingChecked polygon_coords).map (fun _ =>
    let ctx := estimateCtx cosd polygon_coords capacity vehicle_type centroid_lat
      rotation_angle
    emitSpaces cosd sind ctx (cellList ctx.rows ctx.cols) 1)

/-- `estimate_spaces_in_polygon` (lines 198–325): the `try/except` wrapper
returns the estimated spaces, or the empty list when the body raises. -/
def estimate_spaces_in_polygon (cosd sind : ℚ → ℚ)
    (polygon_coords : List (ℚ × ℚ)) (capacity : ℕ) (vehicle_type : String)
    (centroid_lat centroid_lon : ℚ) (rotation_angle : Option ℚ) :
    List EstimatedSpace :=
  match estimate_spaces_core cosd sind polygon_coords capacity vehicle_type
      centroid_lat centroid_lon rotation_angle with
  | .ok spaces => spaces
  | .error _ => []

/-- `estimate_spaces_in_polygon` in `Except` view: the `try/except` catches
every error of the body and converts it into a normal `[]` return. -/
def estimate_spaces_caught (cosd sind : ℚ → ℚ)
    (polygon_coords : List (ℚ × ℚ)) (capacity : ℕ) (vehicle_type : String)
    (centroid_lat centroid_lon : ℚ) (rotation_angle : Option ℚ) :
    Except String (List EstimatedSpace) :=
  match estimate_spaces_core cosd sind polygon_coords capacity vehicle_type
      centroid_lat centroid_lon rotation_angle with
  | .ok spaces => .ok spaces
  | .error _ => .ok []

/-- The number of grid-cell centers of the final grid that pass the
containment filter (the claim's "grid-cell centers that pass the containment
filter"). -/
def passingCenterCount (ctx : EmitCtx) : ℕ :=
  ((cellList ctx.rows ctx.cols).filter
    (fun rc => pointInRing ctx.coords (cellCenter ctx rc))).length

/-! ## Estimation pipeline override (`estimate_spaces_for_facilities`, lines 379–385) -/

/-- Lines 379–385: the size-based vehicle-type validation of the estimation
pipeline — a `truck`/`lzv` tag is downgraded to `car` when the computed area
is positive and below `SIZE_THRESHOLD_M2`. -/
def applySizeOverride (area_m2 : ℚ) (vehicle_type : String) : String :=
  if 0 < area_m2 ∧ area_m2 < SIZE_THRESHOLD_M2 then
    if vehicle_type = "truck" ∨ vehicle_type = "lzv" then "car" else vehicle_type
  else vehicle_type

/-! ## Concrete trigonometric instantiations used by witnesses -/

/-- Equatorial degrees-cosine used to instantiate the abstract `cosd`
parameter in witnesses (all theorems hold for every `cosd`). -/
def cosdEx : ℚ → ℚ := fun _ => 1

/-- Equatorial degrees-sine used to instantiate the abstract `sind`
parameter in witnesses. -/
def sindEx : ℚ → ℚ := fun _ => 0

/-! ## Concrete inputs used by witnesses and counterexamples -/

/-- A wide, shallow parking-area ring: about 300 m × 2 m at the equator.  Its
capacity-5 grid is 1 × 22 and all 22 cell centers lie inside. -/
def thinRect : List (ℚ × ℚ) :=
  [(0, 0), (3/700, 0), (3/700, 1/55660), (0, 1/55660), (0, 0)]

/-- A small square ring (10⁻⁴ degrees a side) whose capacity-0 grid is 1 × 2
with both cell centers inside. -/
def tinySq : List (ℚ × ℚ) :=
  [(0, 0), (1/10000, 0), (1/10000, 1/10000), (0, 1/10000), (0, 0)]

/-- A square ring of computed area ≈ 8.7 m² (positive and below the 30 m²
threshold). -/
def smallSq : List (ℚ × ℚ) :=
  [(0, 0), (1/30000, 0), (1/30000, 1/30000), (0, 1/30000), (0, 0)]

/-- A square ring of computed area 779240 m² (above the 30 m² threshold). -/
def bigSq : List (ℚ × ℚ) :=
  [(0, 0), (1/100, 0), (1/100, 1/100), (0, 1/100), (0, 0)]

/-- A degenerate (collinear) 4-vertex closed ring: its shoelace area is 0. -/
def degenRing : List (ℚ × ℚ) := [(0, 0), (1, 0), (2, 0), (0, 0)]

/-- A 3-vertex ring: too short for `calculate_polygon_dimensions` (and for
polygon construction). -/
def ring3 : List (ℚ × ℚ) := [(0, 0), (1, 0), (0, 0)]

/-- A 4-vertex ring whose first edge has zero length, so the measured width
and area are 0. -/
def ring0 : List (ℚ × ℚ) := [(0, 0), (0, 0), (1, 0), (0, 0)]

/-- A rectangle whose measured edges (under `cosdEx`) are exactly 3.5 m and
13 m. -/
def rect35 : List (ℚ × ℚ) :=
  [(0, 0), (0, 7/222640), (13/70000, 7/222640), (13/70000, 0), (0, 0)]

/-- A rectangle whose measured edges (under `cosdEx`) are exactly 3.4 m and
13 m. -/
def rect34 : List (ℚ × ℚ) :=
  [(0, 0), (0, 17/556600), (13/70000, 17/556600), (13/70000, 0), (0, 0)]

/-- A space feature with the given polygon ring and a representative set of
prior properties. -/
def mkPolyFeature (ring : List (ℚ × ℚ)) (vt : String) : SpaceFeature :=
  ⟨.polygon ring, ⟨vt, some "tag-based", some 1, some 2, some 3⟩⟩

/-- Modelled from the claim's input description: an axis-aligned square of
side `S` meters at latitude `lat`, converted to degrees with the estimator's
own projection (`meters_to_degrees`). -/
def squareRingMeters (cosd : ℚ → ℚ) (S lat lon0 lat0 : ℚ) : List (ℚ × ℚ) :=
  let pm := meters_to_degrees cosd 1 lat
  [(lon0, lat0), (lon0 + S * pm.2, lat0), (lon0 + S * pm.2, lat0 + S * pm.1),
   (lon0, lat0 + S * pm.1), (lon0, lat0)]

/-! ## Helper lemmas -/

lemma headI_mem {α : Type} [Inhabited α] {l : List α} (h : l ≠ []) :
    l.headI ∈ l := by
  cases l with
  | nil => exact absurd rfl h
  | cons a t => exact List.mem_cons_self a t

lemma ratSqrt_sq {q : ℚ} (hq : 0 ≤ q) : Rat.sqrt (q ^ 2) = q := by
  rw [sq, Rat.sqrt_eq, abs_of_nonneg hq]

lemma spaceDims_car : spaceDims "car" = (5/2, 5) := by
  simp [spaceDims, VAN_SPACE_WIDTH, VAN_SPACE_LENGTH]

lemma spaceDims_lzv : spaceDims "lzv" = (5/2, 5) := by
  simp [spaceDims, VAN_SPACE_WIDTH, VAN_SPACE_LENGTH]

lemma calculate_distance_vertical (cosd : ℚ → ℚ) (x y1 y2 : ℚ) (h : y1 ≤ y2) :
    calculate_distance cosd (x, y1) (x, y2) = (y2 - y1) * METERS_PER_DEGREE_LAT := by
  rw [calculate_distance]
  have hz : (x - x) * METERS_PER_DEGREE_LON * cosd ((y1 + y2) / 2) = 0 := by ring
  rw [hz]
  rw [show ((y2 - y1) * METERS_PER_DEGREE_LAT) ^ 2 + (0:ℚ) ^ 2 =
    ((y2 - y1) * METERS_PER_DEGREE_LAT) ^ 2 by ring]
  exact ratSqrt_sq (mul_nonneg (by linarith) (by norm_num [METERS_PER_DEGREE_LAT]))

lemma calculate_distance_horizontal (cosd : ℚ → ℚ) (x1 x2 y : ℚ) (h : x1 ≤ x2)
    (hc : 0 ≤ cosd y) :
    calculate_distance cosd (x1, y) (x2, y) =
      (x2 - x1) * METERS_PER_DEGREE_LON * cosd y := by
  rw [calculate_distance]
  have hy : (y + y) / 2 = y := by ring
  rw [hy]
  have hz : (y - y) * METERS_PER_DEGREE_LAT = 0 := by ring
  rw [hz]
  rw [show (0:ℚ) ^ 2 + ((x2 - x1) * METERS_PER_DEGREE_LON * cosd y) ^ 2 =
    ((x2 - x1) * METERS_PER_DEGREE_LON * cosd y) ^ 2 by ring]
  exact ratSqrt_sq (mul_nonneg
    (mul_nonneg (by linarith) (by norm_num [METERS_PER_DEGREE_LON])) hc)

lemma dims_rect35 : calculate_polygon_dimensions cosdEx rect35 = some (7/2, 13, 91/2) := by
  have e1 : calculate_distance cosdEx ((0:ℚ), (0:ℚ)) ((0:ℚ), 7/222640) = 7/2 := by
    rw [calculate_distance_vertical cosdEx 0 0 (7/222640) (by norm_num)]
    norm_num [METERS_PER_DEGREE_LAT]
  have e2 : calculate_distance cosdEx ((0:ℚ), 7/222640) (13/70000, 7/222640) = 13 := by
    rw [calculate_distance_horizontal cosdEx 0 (13/70000) (7/222640) (by norm_num)
      (by norm_num [cosdEx])]
    norm_num [METERS_PER_DEGREE_LON, cosdEx]
  rw [calculate_polygon_dimensions, if_neg (by norm_num [rect35])]
  simp only [rect35, List.getD_cons_zero, List.getD_cons_succ]
  rw [e1, e2]
  norm_num [min_def, max_def]

lemma dims_rect34 : calculate_polygon_dimensions cosdEx rect34 = some (17/5, 13, 221/5) := by
  have e1 : calculate_distance cosdEx ((0:ℚ), (0:ℚ)) ((0:ℚ), 17/556600) = 17/5 := by
    rw [calculate_distance_vertical cosdEx 0 0 (17/556600) (by norm_num)]
    norm_num [METERS_PER_DEGREE_LAT]
  have e2 : calculate_distance cosdEx ((0:ℚ), 17/556600) (13/70000, 17/556600) = 13 := by
    rw [calculate_distance_horizontal cosdEx 0 (13/70000) (17/556600) (by norm_num)
      (by norm_num [cosdEx])]
    norm_num [METERS_PER_DEGREE_LON, cosdEx]
  rw [calculate_polygon_dimensions, if_neg (by norm_num [rect34])]
  simp only [rect34, List.getD_cons_zero, List.getD_cons_succ]
  rw [e1, e2]
  norm_num [min_def, max_def]

lemma dims_ring0 : calculate_polygon_dimensions cosdEx ring0 = some (0, 70000, 0) := by
  have e1 : calculate_distance cosdEx ((0:ℚ), (0:ℚ)) ((0:ℚ), (0:ℚ)) = 0 := by
    rw [calculate_distance_vertical cosdEx 0 0 0 le_rfl]
    ring
  have e2 : calculate_distance cosdEx ((0:ℚ), (0:ℚ)) ((1:ℚ), (0:ℚ)) = 70000 := by
    rw [calculate_distance_horizontal cosdEx 0 1 0 (by norm_num) (by norm_num [cosdEx])]
    norm_num [METERS_PER_DEGREE_LON, cosdEx]
  rw [calculate_polygon_dimensions, if_neg (by norm_num [ring0])]
  simp only [ring0, List.getD_cons_zero, List.getD_cons_succ]
  rw [e1, e2]
  norm_num [min_def, max_def]

lemma area_smallSq : calculate_polygon_area_m2 cosdEx smallSq 52 = 19481/2250 := by
  norm_num [calculate_polygon_area_m2, mkRingChecked, smallSq, shoelaceArea, ringEdges,
    List.zip, List.zipWith, List.foldl, METERS_PER_DEGREE_LAT, METERS_PER_DEGREE_LON, cosdEx]
  rw [abs_of_nonneg (by norm_num : (0:ℚ) ≤ 1/450000000)]
  norm_num

lemma area_bigSq : calculate_polygon_area_m2 cosdEx bigSq 52 = 779240 := by
  norm_num [calculate_polygon_area_m2, mkRingChecked, bigSq, shoelaceArea, ringEdges,
    List.zip, List.zipWith, List.foldl, METERS_PER_DEGREE_LAT, METERS_PER_DEGREE_LON, cosdEx]
  rw [abs_of_nonneg (by norm_num : (0:ℚ) ≤ 1/5000)]
  norm_num

lemma area_degenRing : calculate_polygon_area_m2 cosdEx degenRing 52 = 0 := by
  norm_num [calculate_polygon_area_m2, mkRingChecked, degenRing, shoelaceArea, ringEdges,
    List.zip, List.zipWith, List.foldl, METERS_PER_DEGREE_LAT, METERS_PER_DEGREE_LON, cosdEx]

/-! ## Claim theorems -/

/-- C4: for a polygon feature with at least 4 ring vertices and non-degenerate
measured edges, the reclassifier assigns `vehicle_type = "truck"` exactly when
the measured width is ≥ 3.5 m and the measured length is ≥ 13 m, and `"car"`
otherwise. -/
theorem reclassify_truck_iff (cosd : ℚ → ℚ) (f : SpaceFeature)
    (ring : List (ℚ × ℚ)) (w l a : ℚ)
    (hg : f.geometry = .polygon ring)
    (hd : calculate_polygon_dimensions cosd ring = some (w, l, a))
    (hw : w ≠ 0) (hl : l ≠ 0) (ha : a ≠ 0) :
    (reclassify_feature cosd f).props.vehicle_type =
      if TRUCK_MIN_WIDTH ≤ w ∧ TRUCK_MIN_LENGTH ≤ l then "truck" else "car" := by
  obtain ⟨g, p⟩ := f
  simp only at hg
  subst hg
  simp only [reclassify_feature, hd, if_pos (And.intro hw (And.intro hl ha))]
  simp [classify_props]

/-- Witness for C4: a rectangle measuring exactly 3.5 m × 13 m classifies as
`"truck"`; one measuring 3.4 m × 13 m classifies as `"car"`. -/
theorem reclassify_truck_iff_witness :
    (reclassify_feature cosdEx (mkPolyFeature rect35 "car")).props.vehicle_type = "truck" ∧
    (reclassify_feature cosdEx (mkPolyFeature rect34 "truck")).props.vehicle_type = "car" := by
  constructor
  · rw [reclassify_truck_iff cosdEx (mkPolyFeature rect35 "car") rect35 (7/2) 13 (91/2)
      rfl dims_rect35 (by norm_num) (by norm_num) (by norm_num)]
    rw [if_pos (by norm_num [TRUCK_MIN_WIDTH, TRUCK_MIN_LENGTH])]
  · rw [reclassify_truck_iff cosdEx (mkPolyFeature rect34 "truck") rect34 (17/5) 13 (221/5)
      rfl dims_rect34 (by norm_num) (by norm_num) (by norm_num)]
    rw [if_neg (by norm_num [TRUCK_MIN_WIDTH, TRUCK_MIN_LENGTH])]

/-- C8: the reclassifier is idempotent — a second application recomputes the
same measured dimensions from the unchanged geometry and rewrites the same
property values. -/
theorem reclassify_idempotent (cosd : ℚ → ℚ) (f : SpaceFeature) :
    reclassify_feature cosd (reclassify_feature cosd f) = reclassify_feature cosd f := by
  obtain ⟨g, p⟩ := f
  cases g with
  | point q => simp [reclassify_feature]
  | polygon ring =>
    simp only [reclassify_feature]
    cases hd : calculate_polygon_dimensions cosd ring with
    | none => simp [hd]
    | some wla =>
      obtain ⟨w, la⟩ := wla
      obtain ⟨l, a⟩ := la
      by_cases hz : w ≠ 0 ∧ l ≠ 0 ∧ a ≠ 0
      · simp [hd, hz, classify_props]
      · simp [hd, hz]

/-- C10: a polygon feature whose ring has fewer than 4 vertices, or whose
measured width, length or area evaluates to 0 (the guard tests truthiness,
not non-`None`), is left entirely unchanged by the reclassifier. -/
theorem reclassify_frame (cosd : ℚ → ℚ) (f : SpaceFeature) (ring : List (ℚ × ℚ))
    (hg : f.geometry = .polygon ring)
    (hz : ∀ w l a : ℚ, calculate_polygon_dimensions cosd ring = some (w, l, a) →
      w = 0 ∨ l = 0 ∨ a = 0) :
    reclassify_feature cosd f = f := by
  obtain ⟨g, p⟩ := f
  simp only at hg
  subst hg
  simp only [reclassify_feature]
  cases hd : calculate_polygon_dimensions cosd ring with
  | none => rfl
  | some wla =>
    obtain ⟨w, la⟩ := wla
    obtain ⟨l, a⟩ := la
    have hneg : ¬(w ≠ 0 ∧ l ≠ 0 ∧ a ≠ 0) := by
      rcases hz w l a hd with h | h | h <;> simp [h]
    simp [hneg]

/-- Witness for C10: a 3-vertex ring (dimensions are `None`) and a 4-vertex
ring with a zero-length first edge (measured width and area are 0) both leave
the feature unchanged. -/
theorem reclassify_frame_witness :
    reclassify_feature cosdEx (mkPolyFeature ring3 "truck") = mkPolyFeature ring3 "truck" ∧
    reclassify_feature cosdEx (mkPolyFeature ring0 "truck") = mkPolyFeature ring0 "truck" := by
  constructor
  · refine reclassify_frame cosdEx _ ring3 rfl ?_
    intro w l a h
    rw [calculate_polygon_dimensions, if_pos (by norm_num [ring3])] at h
    exact absurd h (by simp)
  · refine reclassify_frame cosdEx _ ring0 rfl ?_
    intro w l a h
    rw [dims_ring0] at h
    simp only [Option.some.injEq, Prod.mk.injEq] at h
    exact Or.inl h.1.symm

/-- C7: the detector snaps a dominant angle in [0, 180) to the first of the
reference angles 0, 45, 90, 135 lying within 10 degrees (first match wins in
that fixed order), and returns the dominant angle unmodified otherwise. -/
theorem snap_first_match (d : ℚ) (h0 : 0 ≤ d) (h180 : d < 180) :
    snap_common_angle d =
      if |d - 0| < 10 then 0
      else if |d - 45| < 10 then 45
      else if |d - 90| < 10 then 90
      else if |d - 135| < 10 then 135
      else d := by
  simp [snap_common_angle, snapLoop]

/-- Witness for C7: a dominant angle of 42° snaps to exactly 45°; one of 60°
remains 60°. -/
theorem snap_first_match_witness :
    snap_common_angle 42 = 45 ∧ snap_common_angle 60 = 60 := by
  have h1 := snap_first_match 42 (by norm_num) (by norm_num)
  have h2 := snap_first_match 60 (by norm_num) (by norm_num)
  norm_num at h1 h2
  exact ⟨h1, h2⟩

/-- C3 (amended): in the estimation pipeline, a `truck`/`lzv` tag is
downgraded to `car` when the computed area is positive and below 30 m², and
retained when the area is at least 30 m².  (At computed area 0 — degenerate
or malformed polygon — the tag is retained, see the counterexample.) -/
theorem size_override_downgrade (cosd : ℚ → ℚ) (coords : List (ℚ × ℚ))
    (clat : ℚ) (vt : String) (hvt : vt = "truck" ∨ vt = "lzv") :
    (0 < calculate_polygon_area_m2 cosd coords clat →
      calculate_polygon_area_m2 cosd coords clat < SIZE_THRESHOLD_M2 →
      applySizeOverride (calculate_polygon_area_m2 cosd coords clat) vt = "car") ∧
    (SIZE_THRESHOLD_M2 ≤ calculate_polygon_area_m2 cosd coords clat →
      applySizeOverride (calculate_polygon_area_m2 cosd coords clat) vt = vt) := by
  constructor
  · intro h1 h2
    rw [applySizeOverride, if_pos (And.intro h1 h2), if_pos hvt]
  · intro h
    rw [applySizeOverride, if_neg]
    rintro ⟨-, h2⟩
    exact absurd h (not_le.mpr h2)

/-- Counterexample for C3 as stated: a degenerate 4-vertex ring tagged
`"truck"` has computed area 0, which is below the 30 m² threshold, yet the
override keeps `"truck"` (the code requires `area_m2 > 0`). -/
theorem size_override_cex :
    calculate_polygon_area_m2 cosdEx degenRing 52 < SIZE_THRESHOLD_M2 ∧
    applySizeOverride (calculate_polygon_area_m2 cosdEx degenRing 52) "truck" = "truck" := by
  rw [area_degenRing]
  refine ⟨by norm_num [SIZE_THRESHOLD_M2], ?_⟩
  rw [applySizeOverride, if_neg]
  rintro ⟨h, -⟩
  exact absurd h (by norm_num)

/-- Witness for C3: a ≈8.7 m² square tagged `"truck"` is downgraded to
`"car"`; a 779240 m² square tagged `"truck"` retains `"truck"`. -/
theorem size_override_downgrade_witness :
    applySizeOverride (calculate_polygon_area_m2 cosdEx smallSq 52) "truck" = "car" ∧
    applySizeOverride (calculate_polygon_area_m2 cosdEx bigSq 52) "truck" = "truck" := by
  have hs := size_override_downgrade cosdEx smallSq 52 "truck" (Or.inl rfl)
  have hb := size_override_downgrade cosdEx bigSq 52 "truck" (Or.inl rfl)
  refine ⟨hs.1 ?_ ?_, hb.2 ?_⟩
  · rw [area_smallSq]; norm_num
  · rw [area_smallSq]; norm_num [SIZE_THRESHOLD_M2]
  · rw [area_bigSq]; norm_num [SIZE_THRESHOLD_M2]

/-! ## Emission-loop lemmas -/

lemma mkSpace_space_number (cosd sind : ℚ → ℚ) (ctx : EmitCtx) (rc : ℕ × ℕ) (n : ℕ) :
    (mkSpace cosd sind ctx rc n).space_number = n := rfl

lemma mkSpace_center (cosd sind : ℚ → ℚ) (ctx : EmitCtx) (rc : ℕ × ℕ) (n : ℕ) :
    ((mkSpace cosd sind ctx rc n).center_lon, (mkSpace cosd sind ctx rc n).center_lat) =
      cellCenter ctx rc := rfl

lemma mkSpace_width (cosd sind : ℚ → ℚ) (ctx : EmitCtx) (rc : ℕ × ℕ) (n : ℕ) :
    (mkSpace cosd sind ctx rc n).width_m = ctx.w_m := rfl

lemma mkSpace_length (cosd sind : ℚ → ℚ) (ctx : EmitCtx) (rc : ℕ × ℕ) (n : ℕ) :
    (mkSpace cosd sind ctx rc n).length_m = ctx.l_m := rfl

/-- Length of the emission-loop output with a positive capacity: the loop
emits passing cells until the capacity is reached, so the output length is the
minimum of the remaining budget and the number of passing cells. -/
lemma emitSpaces_length_min (cosd sind : ℚ → ℚ) (ctx : EmitCtx)
    (hcap : 0 < ctx.capacity) :
    ∀ (cells : List (ℕ × ℕ)) (n : ℕ), n ≤ ctx.capacity →
      (emitSpaces cosd sind ctx cells n).length =
        min (ctx.capacity + 1 - n)
          ((cells.filter (fun rc => pointInRing ctx.coords (cellCenter ctx rc))).length) := by
  intro cells
  induction cells with
  | nil => intro n hn; simp [emitSpaces]
  | cons rc rest ih =>
    intro n hn
    by_cases hp : pointInRing ctx.coords (cellCenter ctx rc) = true
    · by_cases hb : ctx.capacity < n + 1
      · have hn' : n = ctx.capacity := le_antisymm hn (Nat.lt_succ_iff.mp hb)
        simp only [emitSpaces, hp, if_true, if_pos (And.intro hcap hb)]
        simp only [List.filter_cons, hp, if_true, List.length_cons, List.length_nil]
        omega
      · have hb' : ¬(0 < ctx.capacity ∧ ctx.capacity < n + 1) := fun h => hb h.2
        simp only [emitSpaces, hp, if_true, if_neg hb']
        rw [List.length_cons, ih (n + 1) (by omega)]
        simp only [List.filter_cons, hp, if_true, List.length_cons]
        omega
    · simp only [emitSpaces, if_neg hp]
      rw [ih n hn]
      simp [List.filter_cons, hp]

/-- With capacity 0 the loop never breaks: it emits exactly the passing
cells. -/
lemma emitSpaces_length_nocap (cosd sind : ℚ → ℚ) (ctx : EmitCtx)
    (hcap : ctx.capacity = 0) :
    ∀ (cells : List (ℕ × ℕ)) (n : ℕ),
      (emitSpaces cosd sind ctx cells n).length =
        (cells.filter (fun rc => pointInRing ctx.coords (cellCenter ctx rc))).length := by
  intro cells
  induction cells with
  | nil => intro n; simp [emitSpaces]
  | cons rc rest ih =>
    intro n
    by_cases hp : pointInRing ctx.coords (cellCenter ctx rc) = true
    · have hb' : ¬(0 < ctx.capacity ∧ ctx.capacity < n + 1) := by simp [hcap]
      simp only [emitSpaces, hp, if_true, if_neg hb', List.filter_cons, List.length_cons, ih]
    · simp only [emitSpaces, if_neg hp, ih]
      simp [List.filter_cons, hp]

/-- The emitted `space_number`s are consecutive, starting at the loop's
initial counter value. -/
lemma emitSpaces_numbers (cosd sind : ℚ → ℚ) (ctx : EmitCtx) :
    ∀ (cells : List (ℕ × ℕ)) (n : ℕ),
      (emitSpaces cosd sind ctx cells n).map (fun s => s.space_number) =
        List.range' n (emitSpaces cosd sind ctx cells n).length := by
  intro cells
  induction cells with
  | nil => intro n; simp [emitSpaces]
  | cons rc rest ih =>
    intro n
    by_cases hp : pointInRing ctx.coords (cellCenter ctx rc) = true
    · by_cases hb : 0 < ctx.capacity ∧ ctx.capacity < n + 1
      · simp only [emitSpaces, hp, if_true, if_pos hb]
        simp [mkSpace_space_number]
      · simp only [emitSpaces, hp, if_true, if_neg hb]
        rw [List.map_cons, ih (n + 1), mkSpace_space_number, List.length_cons,
          List.range'_succ]
    · simp only [emitSpaces, if_neg hp]
      exact ih n

/-- Every space emitted by the loop has its center at a grid-cell center that
passed the containment test. -/
lemma emitSpaces_mem_center (cosd sind : ℚ → ℚ) (ctx : EmitCtx) :
    ∀ (cells : List (ℕ × ℕ)) (n : ℕ) (s : EstimatedSpace),
      s ∈ emitSpaces cosd sind ctx cells n →
      pointInRing ctx.coords (s.center_lon, s.center_lat) = true := by
  intro cells
  induction cells with
  | nil => intro n s hs; simp [emitSpaces] at hs
  | cons rc rest ih =>
    intro n s hs
    by_cases hp : pointInRing ctx.coords (cellCenter ctx rc) = true
    · by_cases hb : 0 < ctx.capacity ∧ ctx.capacity < n + 1
      · simp only [emitSpaces, hp, if_true, if_pos hb, List.mem_singleton] at hs
        subst hs
        rw [mkSpace_center]
        exact hp
      · simp only [emitSpaces, hp, if_true, if_neg hb, List.mem_cons] at hs
        rcases hs with hs | hs
        · subst hs
          rw [mkSpace_center]
          exact hp
        · exact ih (n + 1) s hs
    · simp only [emitSpaces, if_neg hp] at hs
      exact ih n s hs

/-- Every space emitted by the loop reports the context's nominal width and
length. -/
lemma emitSpaces_mem_dims (cosd sind : ℚ → ℚ) (ctx : EmitCtx) :
    ∀ (cells : List (ℕ × ℕ)) (n : ℕ) (s : EstimatedSpace),
      s ∈ emitSpaces cosd sind ctx cells n →
      s.width_m = ctx.w_m ∧ s.length_m = ctx.l_m := by
  intro cells
  induction cells with
  | nil => intro n s hs; simp [emitSpaces] at hs
  | cons rc rest ih =>
    intro n s hs
    by_cases hp : pointInRing ctx.coords (cellCenter ctx rc) = true
    · by_cases hb : 0 < ctx.capacity ∧ ctx.capacity < n + 1
      · simp only [emitSpaces, hp, if_true, if_pos hb, List.mem_singleton] at hs
        subst hs
        exact ⟨rfl, rfl⟩
      · simp only [emitSpaces, hp, if_true, if_neg hb, List.mem_cons] at hs
        rcases hs with hs | hs
        · subst hs
          exact ⟨rfl, rfl⟩
        · exact ih (n + 1) s hs
    · simp only [emitSpaces, if_neg hp] at hs
      exact ih n s hs

/-- On a valid ring the try/except wrapper reduces to the emission loop over
the full grid. -/
lemma estimate_eq_emit (cosd sind : ℚ → ℚ) (coords : List (ℚ × ℚ))
    (capacity : ℕ) (vt : String) (clat clon : ℚ) (rot : Option ℚ)
    (h : ¬(coords.length < 4)) :
    estimate_spaces_in_polygon cosd sind coords capacity vt clat clon rot =
      emitSpaces cosd sind (estimateCtx cosd coords capacity vt clat rot)
        (cellList (estimateCtx cosd coords capacity vt clat rot).rows
          (estimateCtx cosd coords capacity vt clat rot).cols) 1 := by
  rw [estimate_spaces_in_polygon, estimate_spaces_core, mkRingChecked, if_neg h]
  rfl

/-- On a malformed ring the try/except wrapper returns the empty list. -/
lemma estimate_eq_nil (cosd sind : ℚ → ℚ) (coords : List (ℚ × ℚ))
    (capacity : ℕ) (vt : String) (clat clon : ℚ) (rot : Option ℚ)
    (h : coords.length < 4) :
    estimate_spaces_in_polygon cosd sind coords capacity vt clat clon rot = [] := by
  rw [estimate_spaces_in_polygon, estimate_spaces_core, mkRingChecked, if_pos h]
  rfl

lemma estimateCtx_capacity (cosd : ℚ → ℚ) (coords : List (ℚ × ℚ)) (capacity : ℕ)
    (vt : String) (clat : ℚ) (rot : Option ℚ) :
    (estimateCtx cosd coords capacity vt clat rot).capacity = capacity := rfl

lemma estimateCtx_coords (cosd : ℚ → ℚ) (coords : List (ℚ × ℚ)) (capacity : ℕ)
    (vt : String) (clat : ℚ) (rot : Option ℚ) :
    (estimateCtx cosd coords capacity vt clat rot).coords = coords := rfl

/-- The 1 × 22 capacity-adjusted context of the thin-rectangle example. -/
lemma thinRect_ctx : estimateCtx cosdEx thinRect 5 "car" 0 none =
    { coords := thinRect, minx := 0, miny := 0, wdeg := 3/700, hdeg := 1/55660,
      rows := 1, cols := 22, w_m := 5/2, l_m := 5, lonPM := 1/70000, latPM := 1/111320,
      rot := none, capacity := 5 } := by
  norm_num [estimateCtx, estimateGridDims, thinRect, spaceDims_car, ringBounds,
    meters_to_degrees, pyInt, METERS_PER_DEGREE_LAT, METERS_PER_DEGREE_LON,
    min_def, max_def, List.foldl, cosdEx]
  simp
  norm_num [Nat.sqrt, Nat.sqrt.iter]

/-- C1: with `capacity = 5` and more than 5 grid-cell centers passing the
containment filter, exactly 5 spaces are returned, numbered 1..5 in emission
order (so the last accepted space has `space_number = capacity`); and for any
positive capacity the result never has more than `capacity` entries. -/
theorem estimate_capacity_cap (cosd sind : ℚ → ℚ) (coords : List (ℚ × ℚ))
    (vt : String) (clat clon : ℚ) (rot : Option ℚ) :
    (4 ≤ coords.length →
      5 < passingCenterCount (estimateCtx cosd coords 5 vt clat rot) →
      (estimate_spaces_in_polygon cosd sind coords 5 vt clat clon rot).length = 5 ∧
      (estimate_spaces_in_polygon cosd sind coords 5 vt clat clon rot).map
        (fun s => s.space_number) = [1, 2, 3, 4, 5]) ∧
    (∀ capacity : ℕ, 0 < capacity →
      (estimate_spaces_in_polygon cosd sind coords capacity vt clat clon rot).length
        ≤ capacity) := by
  constructor
  · intro h4 hpass
    have hval : ¬(coords.length < 4) := by omega
    rw [estimate_eq_emit cosd sind coords 5 vt clat clon rot hval]
    have hcap : 0 < (estimateCtx cosd coords 5 vt clat rot).capacity := by
      rw [estimateCtx_capacity]; norm_num
    have hlen := emitSpaces_length_min cosd sind (estimateCtx cosd coords 5 vt clat rot)
      hcap (cellList (estimateCtx cosd coords 5 vt clat rot).rows
        (estimateCtx cosd coords 5 vt clat rot).cols) 1
      (by rw [estimateCtx_capacity]; norm_num)
    rw [estimateCtx_capacity] at hlen
    have hcount : passingCenterCount (estimateCtx cosd coords 5 vt clat rot) =
        ((cellList (estimateCtx cosd coords 5 vt clat rot).rows
          (estimateCtx cosd coords 5 vt clat rot).cols).filter
          (fun rc => pointInRing (estimateCtx cosd coords 5 vt clat rot).coords
            (cellCenter (estimateCtx cosd coords 5 vt clat rot) rc))).length := rfl
    rw [hcount] at hpass
    have hfive : (emitSpaces cosd sind (estimateCtx cosd coords 5 vt clat rot)
        (cellList (estimateCtx cosd coords 5 vt clat rot).rows
          (estimateCtx cosd coords 5 vt clat rot).cols) 1).length = 5 := by
      rw [hlen]; omega
    refine ⟨hfive, ?_⟩
    rw [emitSpaces_numbers, hfive]
    rfl
  · intro capacity hcap'
    by_cases hval : coords.length < 4
    · rw [estimate_eq_nil cosd sind coords capacity vt clat clon rot hval]
      simp
    · rw [estimate_eq_emit cosd sind coords capacity vt clat clon rot hval]
      have hcap : 0 < (estimateCtx cosd coords capacity vt clat rot).capacity := by
        rw [estimateCtx_capacity]; exact hcap'
      rw [emitSpaces_length_min cosd sind _ hcap _ 1
        (by rw [estimateCtx_capacity]; exact hcap')]
      rw [estimateCtx_capacity]
      omega

/-- Witness for C1: the thin rectangle has 22 passing centers (> 5); with
capacity 5 exactly 5 spaces numbered 1..5 come back, and with capacity 7 the
output length is at most 7. -/
theorem estimate_capacity_cap_witness :
    (estimate_spaces_in_polygon cosdEx sindEx thinRect 5 "car" 0 0 none).length = 5 ∧
    (estimate_spaces_in_polygon cosdEx sindEx thinRect 5 "car" 0 0 none).map
      (fun s => s.space_number) = [1, 2, 3, 4, 5] ∧
    5 < passingCenterCount (estimateCtx cosdEx thinRect 5 "car" 0 none) ∧
    (estimate_spaces_in_polygon cosdEx sindEx thinRect 7 "car" 0 0 none).length ≤ 7 := by
  have h := estimate_capacity_cap cosdEx sindEx thinRect "car" 0 0 none
  have hpass : 5 < passingCenterCount (estimateCtx cosdEx thinRect 5 "car" 0 none) := by
    rw [passingCenterCount, thinRect_ctx]
    norm_num [cellList, List.range_succ, cellCenter, pointInRing,
      ringEdges, thinRect, List.foldl, List.filter]
  obtain ⟨ha, hb⟩ := h.1 (by norm_num [thinRect]) hpass
  exact ⟨ha, hb, hpass, h.2 7 (by norm_num)⟩

/-- The 1 × 2 context of the tiny-square example under vehicle type `lzv`. -/
lemma tinySq_lzv_ctx : estimateCtx cosdEx tinySq 0 "lzv" 0 none =
    { coords := tinySq, minx := 0, miny := 0, wdeg := 1/10000, hdeg := 1/10000,
      rows := 1, cols := 2, w_m := 5/2, l_m := 5, lonPM := 1/70000, latPM := 1/111320,
      rot := none, capacity := 0 } := by
  norm_num [estimateCtx, estimateGridDims, tinySq, spaceDims_lzv, ringBounds,
    meters_to_degrees, pyInt, METERS_PER_DEGREE_LAT, METERS_PER_DEGREE_LON,
    min_def, max_def, List.foldl, cosdEx]
  simp

/-- The 1 × 2 context of the tiny-square example under vehicle type `car`. -/
lemma tinySq_car_ctx : estimateCtx cosdEx tinySq 0 "car" 0 none =
    { coords := tinySq, minx := 0, miny := 0, wdeg := 1/10000, hdeg := 1/10000,
      rows := 1, cols := 2, w_m := 5/2, l_m := 5, lonPM := 1/70000, latPM := 1/111320,
      rot := none, capacity := 0 } := by
  norm_num [estimateCtx, estimateGridDims, tinySq, spaceDims_car, ringBounds,
    meters_to_degrees, pyInt, METERS_PER_DEGREE_LAT, METERS_PER_DEGREE_LON,
    min_def, max_def, List.foldl, cosdEx]
  simp

/-- The tiny-square `lzv` run emits both grid cells (it is nonempty). -/
lemma tinySq_lzv_ne_nil :
    estimate_spaces_in_polygon cosdEx sindEx tinySq 0 "lzv" 0 0 none ≠ [] := by
  rw [estimate_eq_emit cosdEx sindEx tinySq 0 "lzv" 0 0 none (by norm_num [tinySq]),
    tinySq_lzv_ctx]
  norm_num [cellList, List.range_succ, emitSpaces, cellCenter, pointInRing,
    ringEdges, tinySq, List.foldl, mkSpace]
  exact List.cons_ne_nil _ _

/-- The tiny-square `car` run emits both grid cells (it is nonempty). -/
lemma tinySq_car_ne_nil :
    estimate_spaces_in_polygon cosdEx sindEx tinySq 0 "car" 0 0 none ≠ [] := by
  rw [estimate_eq_emit cosdEx sindEx tinySq 0 "car" 0 0 none (by norm_num [tinySq]),
    tinySq_car_ctx]
  norm_num [cellList, List.range_succ, emitSpaces, cellCenter, pointInRing,
    ringEdges, tinySq, List.foldl, mkSpace]
  exact List.cons_ne_nil _ _

/-- C2 (amended): for vehicle type `lzv` the estimator resolves the car/van
dimensions 2.5 m × 5.0 m — only the exact string `'truck'` selects the truck
dimensions — and every emitted space reports those car/van dimensions. -/
theorem estimate_lzv_dims (cosd sind : ℚ → ℚ) (coords : List (ℚ × ℚ))
    (capacity : ℕ) (clat clon : ℚ) (rot : Option ℚ) (s : EstimatedSpace)
    (hs : s ∈ estimate_spaces_in_polygon cosd sind coords capacity "lzv" clat clon rot) :
    s.width_m = VAN_SPACE_WIDTH ∧ s.length_m = VAN_SPACE_LENGTH := by
  by_cases hval : coords.length < 4
  · rw [estimate_eq_nil cosd sind coords capacity "lzv" clat clon rot hval] at hs
    simp at hs
  · rw [estimate_eq_emit cosd sind coords capacity "lzv" clat clon rot hval] at hs
    have hd := emitSpaces_mem_dims cosd sind _ _ 1 s hs
    have hw : (estimateCtx cosd coords capacity "lzv" clat rot).w_m = VAN_SPACE_WIDTH := by
      simp [estimateCtx, spaceDims, VAN_SPACE_WIDTH]
    have hl : (estimateCtx cosd coords capacity "lzv" clat rot).l_m = VAN_SPACE_LENGTH := by
      simp [estimateCtx, spaceDims, VAN_SPACE_LENGTH]
    rw [hw, hl] at hd
    exact hd

/-- Counterexample for C2 as stated: a concrete `lzv` run emits spaces whose
reported width is 2.5 m, not the truck width 4.0 m. -/
theorem estimate_lzv_dims_cex :
    (estimate_spaces_in_polygon cosdEx sindEx tinySq 0 "lzv" 0 0 none).length = 2 ∧
    (estimate_spaces_in_polygon cosdEx sindEx tinySq 0 "lzv" 0 0 none).headI.width_m = 5/2 ∧
    ¬((5:ℚ)/2 = TRUCK_SPACE_WIDTH) := by
  rw [estimate_eq_emit cosdEx sindEx tinySq 0 "lzv" 0 0 none (by norm_num [tinySq]),
    tinySq_lzv_ctx]
  norm_num [cellList, List.range_succ, emitSpaces, cellCenter, pointInRing,
    ringEdges, tinySq, List.foldl, mkSpace, TRUCK_SPACE_WIDTH]

/-- Witness for C2: in the tiny-square `lzv` run the first emitted space
reports the car/van dimensions. -/
theorem estimate_lzv_dims_witness :
    (estimate_spaces_in_polygon cosdEx sindEx tinySq 0 "lzv" 0 0 none).headI.width_m =
      VAN_SPACE_WIDTH ∧
    (estimate_spaces_in_polygon cosdEx sindEx tinySq 0 "lzv" 0 0 none).headI.length_m =
      VAN_SPACE_LENGTH :=
  estimate_lzv_dims cosdEx sindEx tinySq 0 0 0 none _ (headI_mem tinySq_lzv_ne_nil)

/-- C6: with `rotation_angle = None`, every emitted space's center passes the
same point-in-polygon containment test used to filter the grid candidates
(the loop only ever emits a cell after its center passes that test). -/
theorem estimate_centers_inside (cosd sind : ℚ → ℚ) (coords : List (ℚ × ℚ))
    (capacity : ℕ) (vt : String) (clat clon : ℚ) (s : EstimatedSpace)
    (hs : s ∈ estimate_spaces_in_polygon cosd sind coords capacity vt clat clon none) :
    pointInRing coords (s.center_lon, s.center_lat) = true := by
  by_cases hval : coords.length < 4
  · rw [estimate_eq_nil cosd sind coords capacity vt clat clon none hval] at hs
    simp at hs
  · rw [estimate_eq_emit cosd sind coords capacity vt clat clon none hval] at hs
    exact emitSpaces_mem_center cosd sind _ _ 1 s hs

/-- Witness for C6: the first space of the tiny-square run has its center
inside the square per the containment test. -/
theorem estimate_centers_inside_witness :
    pointInRing tinySq
      ((estimate_spaces_in_polygon cosdEx sindEx tinySq 0 "car" 0 0 none).headI.center_lon,
       (estimate_spaces_in_polygon cosdEx sindEx tinySq 0 "car" 0 0 none).headI.center_lat) =
      true :=
  estimate_centers_inside cosdEx sindEx tinySq 0 "car" 0 0 _ (headI_mem tinySq_car_ne_nil)

/-- C9: every exception of the estimator body is caught — if the body raises
during geometry construction the function returns `[]`, and in `Except` view
the wrapped function is always a normal (`Except.ok`) return. -/
theorem estimate_never_raises (cosd sind : ℚ → ℚ) (coords : List (ℚ × ℚ))
    (capacity : ℕ) (vt : String) (clat clon : ℚ) (rot : Option ℚ) :
    (∀ e, estimate_spaces_core cosd sind coords capacity vt clat clon rot = .error e →
      estimate_spaces_in_polygon cosd sind coords capacity vt clat clon rot = []) ∧
    estimate_spaces_caught cosd sind coords capacity vt clat clon rot =
      .ok (estimate_spaces_in_polygon cosd sind coords capacity vt clat clon rot) := by
  cases hc : estimate_spaces_core cosd sind coords capacity vt clat clon rot with
  | ok s =>
    refine ⟨fun e he => ?_, ?_⟩
    · exact absurd he (by simp)
    · simp [estimate_spaces_caught, estimate_spaces_in_polygon, hc]
  | error e =>
    refine ⟨fun e' he' => ?_, ?_⟩
    · simp [estimate_spaces_in_polygon, hc]
    · simp [estimate_spaces_caught, estimate_spaces_in_polygon, hc]

/-- Witness for C9: a malformed 3-vertex ring makes the body raise; the
function returns `[]` and the `Except` view is `Except.ok []`. -/
theorem estimate_never_raises_witness :
    estimate_spaces_in_polygon cosdEx sindEx ring3 0 "car" 0 0 none = [] ∧
    estimate_spaces_caught cosdEx sindEx ring3 0 "car" 0 0 none = .ok [] := by
  have h := estimate_never_raises cosdEx sindEx ring3 0 "car" 0 0 none
  have hc : estimate_spaces_core cosdEx sindEx ring3 0 "car" 0 0 none =
      .error "invalid polygon" := by
    rw [estimate_spaces_core, mkRingChecked, if_pos (by norm_num [ring3])]
    rfl
  have h1 := h.1 "invalid polygon" hc
  exact ⟨h1, by rw [h.2, h1]⟩

/-- Bounding box of an axis-aligned rectangle ring with nonnegative extents. -/
lemma ringBounds_rect (x y t u : ℚ) (ht : 0 ≤ t) (hu : 0 ≤ u) :
    ringBounds [(x, y), (x + t, y), (x + t, y + u), (x, y + u), (x, y)] =
      (x, y, x + t, y + u) := by
  have h1 : min x (x + t) = x := min_eq_left (by linarith)
  have h2 : max x (x + t) = x + t := max_eq_right (by linarith)
  have h3 : min y (y + u) = y := min_eq_left (by linarith)
  have h4 : max y (y + u) = y + u := max_eq_right (by linarith)
  have h6 : max (x + t) x = x + t := max_eq_left (by linarith)
  have h7 : max (y + u) y = y + u := max_eq_left (by linarith)
  simp only [ringBounds, List.foldl, h1, h2, h3, h4, h6, h7, min_self, max_self]

/-- C5 (amended): for an axis-aligned square of side `S` meters and the
car/van class (2.5 m × 5.0 m, spacing factor 1.2) with `capacity = 0`, the
grid is `rows = max(1, ⌊S/6⌋)` by `cols = max(1, ⌊S/3⌋)` — the code clamps
both factors at a minimum of 1, so the claim's `⌊S/3⌋ · ⌊S/6⌋` formula only
holds once both floors are at least 1 (S ≥ 6). -/
theorem square_grid_dims (cosd : ℚ → ℚ) (S lat lon0 lat0 : ℚ)
    (hS : 0 < S) (hc : 0 < cosd lat) :
    estimateGridDims cosd (squareRingMeters cosd S lat lon0 lat0) 0 "car" lat =
      (max 1 (pyInt (S / 6)).toNat, max 1 (pyInt (S / 3)).toNat) := by
  have hden : (70000 : ℚ) * cosd lat ≠ 0 := ne_of_gt (by positivity)
  have hp : (0:ℚ) < 1 / (70000 * cosd lat) := by positivity
  have ht : (0:ℚ) ≤ S * (1 / (70000 * cosd lat)) := by positivity
  have hu : (0:ℚ) ≤ S * (1 / 111320) := by positivity
  simp only [squareRingMeters, meters_to_degrees, METERS_PER_DEGREE_LAT,
    METERS_PER_DEGREE_LON, estimateGridDims, spaceDims_car]
  rw [ringBounds_rect lon0 lat0 (S * (1 / (70000 * cosd lat))) (S * (1 / 111320)) ht hu,
    if_neg (lt_irrefl 0)]
  simp
  have hcne : cosd lat ≠ 0 := ne_of_gt hc
  have e1 : S * (111320:ℚ)⁻¹ / (5 * (111320:ℚ)⁻¹ * (6 / 5)) = S / 6 := by
    field_simp
    ring
  have e2 : S * ((cosd lat)⁻¹ * (70000:ℚ)⁻¹) /
      (5 / 2 * ((cosd lat)⁻¹ * (70000:ℚ)⁻¹) * (6 / 5)) = S / 3 := by
    field_simp
    ring
  rw [e1, e2]
  exact ⟨rfl, rfl⟩

/-- Counterexample for C5 as stated: for a 2 m square the code's grid is
1 × 1 (the `max(1, ·)` clamps), not `⌊2/3⌋ · ⌊2/6⌋ = 0` as the claim's
formula demands. -/
theorem square_grid_cex :
    estimateGridDims cosdEx (squareRingMeters cosdEx 2 0 0 0) 0 "car" 0 = (1, 1) ∧
    ¬((1:ℕ) * 1 = (pyInt ((2:ℚ) / 3)).toNat * (pyInt ((2:ℚ) / 6)).toNat) := by
  constructor
  · norm_num [estimateGridDims, squareRingMeters, spaceDims_car, ringBounds,
      meters_to_degrees, pyInt, METERS_PER_DEGREE_LAT, METERS_PER_DEGREE_LON,
      min_def, max_def, List.foldl, cosdEx]
  · norm_num [pyInt]

/-- Witness for C5: a 10 m square gives a 1 × 3 grid (3 candidate cells),
matching `max(1, ⌊10/6⌋) × max(1, ⌊10/3⌋)`. -/
theorem square_grid_dims_witness :
    estimateGridDims cosdEx (squareRingMeters cosdEx 10 0 0 0) 0 "car" 0 = (1, 3) := by
  rw [square_grid_dims cosdEx 10 0 0 0 (by norm_num) (by norm_num [cosdEx])]
  norm_num [pyInt]
  simp
